import Mathlib

/-!
Shallow embedding of the weserv image-API utility layer
(`src/api/utils/utility.h` and the error boundary declared in
`src/api/api_manager_impl.h`), with theorems settling the specification
claims about it.

C `int` is modelled as `Int` (with explicit two's-complement wrapping where
the code can overflow), C strings as `String`, and C truncating integer
division as `Int.tdiv`.  Enum types whose header (`enums.h`) is not part of
the available sources are reconstructed from their uses in `utility.h`:
every constructor referenced there is present.
-/

namespace Weserv

/-- `enums::ImageType`: the closed set of recognized source formats
(constructors as referenced throughout `utility.h`). -/
inductive ImageType where
  | Jpeg | Png | Webp | Tiff | Gif | Svg | Pdf | Heif | Magick | Unknown
deriving DecidableEq, Repr

/-- `enums::Output`: output formats as referenced in `utility.h`
(`determine_image_extension` / `to_output` switches). -/
inductive Output where
  | Jpeg | Webp | Tiff | Gif | Png
deriving DecidableEq, Repr

/-- `enums::Position`: the nine anchor values as referenced in the
`calculate_position` switch (`Centre` is the `default:` case). -/
inductive Position where
  | Top | Right | Bottom | Left
  | TopRight | BottomRight | BottomLeft | TopLeft
  | Centre
deriving DecidableEq, Repr

/-- `VipsAngle` (libvips): quarter-turn rotations. -/
inductive VipsAngle where
  | D0 | D90 | D180 | D270
deriving DecidableEq, Repr

/-- `VipsInterpretation` (libvips): colour interpretations. -/
inductive VipsInterpretation where
  | Error | Multiband | B_W | Histogram | Xyz | Lab | Cmyk | Labq | Rgb
  | Cmc | Lch | Labs | Srgb | Yxy | Fourier | Rgb16 | Grey16 | Matrix
  | Scrgb | Hsv
deriving DecidableEq, Repr

/-- `VipsBandFormat` (libvips): pixel sample formats. -/
inductive VipsBandFormat where
  | Notset | Uchar | Char | Ushort | Short | Uint | Int | Float
  | Complex | Double | Dpcomplex
deriving DecidableEq, Repr

/-! ## Signed 32-bit arithmetic (`mul_overflow`) -/

/-- `std::numeric_limits<int>::max()` for 32-bit `int`. -/
def intMax : Int := 2 ^ 31 - 1

/-- `std::numeric_limits<int>::min()` for 32-bit `int`. -/
def intMin : Int := -(2 ^ 31)

/-- Two's-complement wrap of an integer to signed 32-bit, the effect of
`static_cast<int>` applied to an `int64_t` value (and of the result store
performed by `__builtin_smul_overflow`). -/
def wrap32 (t : Int) : Int := (t + 2 ^ 31) % 2 ^ 32 - 2 ^ 31

/-- `utils::mul_overflow` (`utility.h:463-472`): computes the exact product
in 64-bit, stores the (possibly wrapped) 32-bit result, and reports whether
the exact product fits in signed 32-bit.  Returns
(overflow flag, stored `*result`). -/
def mul_overflow (a b : Int) : Bool × Int :=
  let t : Int := a * b
  (decide (t > intMax) || decide (t < intMin), wrap32 t)

/-! ## Geometry (`calculate_position`) -/

/-- `utils::calculate_position` (`utility.h:290-330`): the (left, top)
coordinates for placing an `in`-sized region relative to an `out`-sized
region under the given anchor `Position`.  C integer division truncates
toward zero, hence `Int.tdiv`. -/
def calculate_position (in_width in_height out_width out_height : Int)
    (pos : Position) : Int × Int :=
  match pos with
  | Position.Top => (Int.tdiv (out_width - in_width) 2, 0)
  | Position.Right => (out_width - in_width, Int.tdiv (out_height - in_height) 2)
  | Position.Bottom => (Int.tdiv (out_width - in_width) 2, out_height - in_height)
  | Position.Left => (0, Int.tdiv (out_height - in_height) 2)
  | Position.TopRight => (out_width - in_width, 0)
  | Position.BottomRight => (out_width - in_width, out_height - in_height)
  | Position.BottomLeft => (0, out_height - in_height)
  | Position.TopLeft => (0, 0)
  | Position.Centre =>
      (Int.tdiv (out_width - in_width) 2, Int.tdiv (out_height - in_height) 2)

/-- The 3x3 anchor grid of the specification: the horizontal column of an
anchor (0 = left, 1 = middle, 2 = right). -/
def anchorColumn (pos : Position) : Nat :=
  match pos with
  | Position.TopLeft | Position.Left | Position.BottomLeft => 0
  | Position.Top | Position.Centre | Position.Bottom => 1
  | Position.TopRight | Position.Right | Position.BottomRight => 2

/-- The 3x3 anchor grid of the specification: the vertical row of an anchor
(0 = top, 1 = middle, 2 = bottom). -/
def anchorRow (pos : Position) : Nat :=
  match pos with
  | Position.TopLeft | Position.Top | Position.TopRight => 0
  | Position.Left | Position.Centre | Position.Right => 1
  | Position.BottomLeft | Position.Bottom | Position.BottomRight => 2

/-- The specification's formula for one axis: 0 for the near edge, half the
surplus for the middle, the full surplus for the far edge. -/
def spec_axis_offset (inner outer : Int) : Nat → Int
  | 0 => 0
  | 1 => Int.tdiv (outer - inner) 2
  | _ => outer - inner

/-! ## Angles (`resolve_angle_rotation`) -/

/-- `utils::resolve_angle_rotation` (`utility.h:136-148`): switch on the
angle; any value other than 90/180/270 (the `default:` case) yields
`VIPS_ANGLE_D0`. -/
def resolve_angle_rotation (angle : Int) : VipsAngle :=
  if angle = 90 then VipsAngle.D90
  else if angle = 180 then VipsAngle.D180
  else if angle = 270 then VipsAngle.D270
  else VipsAngle.D0

/-! ## Bit depth and alpha maxima -/

/-- `utils::is_16_bit` (`utility.h:40-43`). -/
def is_16_bit (interpretation : VipsInterpretation) : Bool :=
  interpretation = VipsInterpretation.Rgb16 ||
  interpretation = VipsInterpretation.Grey16

/-- `utils::maximum_image_alpha` (`utility.h:51-53`). -/
def maximum_image_alpha (interpretation : VipsInterpretation) : Int :=
  if is_16_bit interpretation then 65535 else 255

/-! ## Output formats and extensions -/

/-- `utils::determine_image_extension` (`utility.h:157-171`): `Png` shares
the `default:` branch. -/
def determine_image_extension (output : Output) : String :=
  match output with
  | Output.Jpeg => ".jpg"
  | Output.Webp => ".webp"
  | Output.Tiff => ".tiff"
  | Output.Gif => ".gif"
  | Output.Png => ".png"

/-- `utils::to_output` (`utility.h:178-192`): `Png`, `Svg`, `Pdf`, `Heif`,
`Magick` and `Unknown` all take the `Png`/`default:` branch. -/
def to_output (image_type : ImageType) : Output :=
  match image_type with
  | ImageType.Jpeg => Output.Jpeg
  | ImageType.Webp => Output.Webp
  | ImageType.Tiff => Output.Tiff
  | ImageType.Gif => Output.Gif
  | _ => Output.Png

/-! ## Image model and metadata introspection

A loaded `VImage` is modelled by the descriptor facts the utility layer
reads from it: dimensions, band count, interpretation, band format,
resolution, the alpha flag, and the optional metadata entries
(`get_typeof(name) != 0` becomes `Option.isSome`). -/

/-- The descriptor fields of a loaded `vips::VImage` that `utility.h`
reads.  Each `Option` field models one metadata entry: `none` when
`get_typeof` returns 0, `some v` when the entry is present with value `v`. -/
structure VImageModel where
  width : Int
  height : Int
  bands : Int
  interpretation : VipsInterpretation
  format : VipsBandFormat
  /-- `image.xres()`: horizontal resolution in pixels/mm. -/
  xres : Rat
  /-- `VIPS_META_ICC_NAME` present? (`has_profile`). -/
  iccProfile : Bool
  /-- `"jpeg-chroma-subsample"` metadata. -/
  chromaSubsample : Option String
  /-- `"interlaced"` metadata present? -/
  interlaced : Bool
  /-- `"palette-bit-depth"` metadata. -/
  paletteBitDepth : Option Int
  /-- `VIPS_META_N_PAGES` metadata. -/
  nPages : Option Int
  /-- `VIPS_META_PAGE_HEIGHT` metadata. -/
  pageHeight : Option Int
  /-- `"loop"` metadata (libvips >= 8.9 branch). -/
  loop : Option Int
  /-- `"delay"` array metadata (libvips >= 8.9 branch). -/
  delay : Option (List Int)
  /-- `"heif-primary"` metadata. -/
  heifPrimary : Option Int
  /-- `image.has_alpha()`. -/
  hasAlpha : Bool
  /-- `VIPS_META_ORIENTATION` metadata. -/
  orientationMeta : Option Int
deriving DecidableEq, Repr

/-- `utils::has_profile` (`utility.h:60-62`). -/
def has_profile (image : VImageModel) : Bool := image.iccProfile

/-- `utils::has_density` (`utility.h:69-71`): `image.xres() > 1.0`. -/
def has_density (image : VImageModel) : Bool := decide (image.xres > 1)

/-- `utils::get_density` (`utility.h:78-80`): pixels/mm as rounded
pixels/inch. -/
def get_density (image : VImageModel) : Int := round (image.xres * (254 / 10 : Rat))

/-- Modelled from the spec: `vips_image_get_page_height` is libvips engine
code, not part of the sources; per the spec it "returns the declared page
height if present and plausible (greater than zero and no larger than the
total image height), else falls back to full image height". -/
def vips_image_get_page_height (height : Int) (pageHeightMeta : Option Int) : Int :=
  match pageHeightMeta with
  | some ph => if 0 < ph ∧ ph ≤ height then ph else height
  | none => height

/-- `utils::get_page_height` (`utility.h:88-90`): delegates to
`vips_image_get_page_height` on the image's height and page-height
metadata. -/
def get_page_height (image : VImageModel) : Int :=
  vips_image_get_page_height image.height image.pageHeight

/-- `utils::exif_orientation` (`utility.h:97-101`): the
`VIPS_META_ORIENTATION` value if present, else 0. -/
def exif_orientation (image : VImageModel) : Int :=
  match image.orientationMeta with
  | some o => o
  | none => 0

/-! ## Loader classification (`determine_image_type`) -/

/-- `std::string::rfind(prefix, 0) == 0`, i.e. "starts with", on the
underlying character sequences. -/
def starts_with (p s : String) : Bool := p.data.isPrefixOf s.data

/-- `utils::determine_image_type` (`utility.h:199-222`): classify the name
of the load operation by its prefix; everything else is `Unknown`. -/
def determine_image_type (loader : String) : ImageType :=
  if starts_with "VipsForeignLoadJpeg" loader then ImageType.Jpeg
  else if starts_with "VipsForeignLoadPng" loader then ImageType.Png
  else if starts_with "VipsForeignLoadWebp" loader then ImageType.Webp
  else if starts_with "VipsForeignLoadTiff" loader then ImageType.Tiff
  else if starts_with "VipsForeignLoadGif" loader then ImageType.Gif
  else if starts_with "VipsForeignLoadSvg" loader then ImageType.Svg
  else if starts_with "VipsForeignLoadPdf" loader then ImageType.Pdf
  else if starts_with "VipsForeignLoadHeif" loader then ImageType.Heif
  else if starts_with "VipsForeignLoadMagick" loader then ImageType.Magick
  else ImageType.Unknown

/-! ## JSON metadata report (`image_to_json`) -/

/-- `utils::image_type_id` (`utility.h:243-268`). -/
def image_type_id (image_type : ImageType) : String :=
  match image_type with
  | ImageType.Jpeg => "jpeg"
  | ImageType.Png => "png"
  | ImageType.Webp => "webp"
  | ImageType.Tiff => "tiff"
  | ImageType.Gif => "gif"
  | ImageType.Svg => "svg"
  | ImageType.Pdf => "pdf"
  | ImageType.Heif => "heif"
  | ImageType.Magick => "magick"
  | ImageType.Unknown => "unknown"

/-- `vips_enum_nick(VIPS_TYPE_INTERPRETATION, ...)` (libvips GEnum nicks). -/
def interpretation_nick (i : VipsInterpretation) : String :=
  match i with
  | VipsInterpretation.Error => "error"
  | VipsInterpretation.Multiband => "multiband"
  | VipsInterpretation.B_W => "b-w"
  | VipsInterpretation.Histogram => "histogram"
  | VipsInterpretation.Xyz => "xyz"
  | VipsInterpretation.Lab => "lab"
  | VipsInterpretation.Cmyk => "cmyk"
  | VipsInterpretation.Labq => "labq"
  | VipsInterpretation.Rgb => "rgb"
  | VipsInterpretation.Cmc => "cmc"
  | VipsInterpretation.Lch => "lch"
  | VipsInterpretation.Labs => "labs"
  | VipsInterpretation.Srgb => "srgb"
  | VipsInterpretation.Yxy => "yxy"
  | VipsInterpretation.Fourier => "fourier"
  | VipsInterpretation.Rgb16 => "rgb16"
  | VipsInterpretation.Grey16 => "grey16"
  | VipsInterpretation.Matrix => "matrix"
  | VipsInterpretation.Scrgb => "scrgb"
  | VipsInterpretation.Hsv => "hsv"

/-- `vips_enum_nick(VIPS_TYPE_BAND_FORMAT, ...)` (libvips GEnum nicks). -/
def band_format_nick (f : VipsBandFormat) : String :=
  match f with
  | VipsBandFormat.Notset => "notset"
  | VipsBandFormat.Uchar => "uchar"
  | VipsBandFormat.Char => "char"
  | VipsBandFormat.Ushort => "ushort"
  | VipsBandFormat.Short => "short"
  | VipsBandFormat.Uint => "uint"
  | VipsBandFormat.Int => "int"
  | VipsBandFormat.Float => "float"
  | VipsBandFormat.Complex => "complex"
  | VipsBandFormat.Double => "double"
  | VipsBandFormat.Dpcomplex => "dpcomplex"

/-- A JSON string literal: the value wrapped in double quotes (the report
values emitted by `image_to_json` contain no characters needing escapes). -/
def jsonQuote (s : String) : String := "\"" ++ s ++ "\""

/-- The `"delay":[...]` array body: the loop in `image_to_json` writes each
delay followed by a comma except after the last, i.e. a comma-separated
list in brackets. -/
def jsonIntArray (xs : List Int) : String :=
  "[" ++ String.intercalate "," (xs.map toString) ++ "]"

/-- A field group guarded by `get_typeof(...) != 0`: emitted (with its
rendered value) exactly when the metadata entry is present. -/
def optField {α : Type} (name : String) (o : Option α) (render : α → String) :
    List (String × String) :=
  match o with
  | some x => [(name, render x)]
  | none => []

/-- A field group guarded by a boolean condition. -/
def condField (name : String) (c : Bool) (value : String) :
    List (String × String) :=
  if c then [(name, value)] else []

/-- `utils::image_to_json` (`utility.h:338-409`) as the ordered sequence of
(field name, rendered JSON value) pairs it emits, one list element per
`json <<` field group, with each conditional group contributing its pair
exactly when the code's condition holds.  The libvips >= 8.9 branch of the
two version conditionals is modelled (`"loop"` / `"delay"` metadata). -/
def image_to_json_fields (image : VImageModel) (image_type : ImageType) :
    List (String × String) :=
  [("format", jsonQuote (image_type_id image_type)),
   ("width", toString image.width),
   ("height", toString image.height),
   ("space", jsonQuote (interpretation_nick image.interpretation)),
   ("channels", toString image.bands),
   ("depth", jsonQuote (band_format_nick image.format))] ++
  condField "density" (has_density image) (toString (get_density image)) ++
  optField "chromaSubsampling" image.chromaSubsample jsonQuote ++
  [("isProgressive", if image.interlaced then "true" else "false")] ++
  optField "paletteBitDepth" image.paletteBitDepth toString ++
  optField "pages" image.nPages toString ++
  optField "pageHeight" image.pageHeight toString ++
  optField "loop" image.loop toString ++
  optField "delay" image.delay jsonIntArray ++
  optField "pagePrimary" image.heifPrimary toString ++
  [("hasProfile", if has_profile image then "true" else "false"),
   ("hasAlpha", if image.hasAlpha then "true" else "false"),
   ("orientation", toString (exif_orientation image))]

/-- The string returned by `utils::image_to_json`: every field is written
as `"name":value` followed by a comma, except the final one which is
followed by the closing brace — i.e. the comma-separated field list in
braces. -/
def image_to_json (image : VImageModel) (image_type : ImageType) : String :=
  "\x7b" ++
  String.intercalate ","
    ((image_to_json_fields image image_type).map fun p => jsonQuote p.1 ++ ":" ++ p.2) ++
  "\x7d"

/-- The field names present in the JSON report. -/
def json_keys (image : VImageModel) (image_type : ImageType) : List String :=
  (image_to_json_fields image image_type).map Prod.fst

/-! ## Error boundary (`exception_handler`) -/

/-- The error taxonomy of the specification (section 7). -/
inductive ErrorKind where
  | Validation | Geometry | UnsupportedFormat | Stage | Io | Unexpected
deriving DecidableEq, Repr

/-- A lower-level failure reaching the request boundary: one of the typed
errors of the taxonomy, or an arbitrary unexpected engine fault. -/
inductive LowLevelFault where
  | validation (message : String)
  | geometry (message : String)
  | unsupportedFormat (message : String)
  | stage (stageId : String) (message : String)
  | io (message : String)
  | unexpected (message : String)
deriving DecidableEq, Repr

/-- The error kind a boundary fault is tagged with. -/
def fault_kind (fault : LowLevelFault) : ErrorKind :=
  match fault with
  | LowLevelFault.validation _ => ErrorKind.Validation
  | LowLevelFault.geometry _ => ErrorKind.Geometry
  | LowLevelFault.unsupportedFormat _ => ErrorKind.UnsupportedFormat
  | LowLevelFault.stage _ _ => ErrorKind.Stage
  | LowLevelFault.io _ => ErrorKind.Io
  | LowLevelFault.unexpected _ => ErrorKind.Unexpected

/-- The human-readable message carried by a boundary fault. -/
def fault_message (fault : LowLevelFault) : String :=
  match fault with
  | LowLevelFault.validation m => m
  | LowLevelFault.geometry m => m
  | LowLevelFault.unsupportedFormat m => m
  | LowLevelFault.stage s m => s ++ ": " ++ m
  | LowLevelFault.io m => m
  | LowLevelFault.unexpected m => m

/-- `utils::Status`: the result of a whole request — success, or a tagged
failure with a human-readable message. -/
inductive Status where
  | ok
  | error (kind : ErrorKind) (message : String)
deriving DecidableEq, Repr

/-- Modelled from the spec: `ApiManagerImpl::exception_handler` is declared
at `api_manager_impl.h:68-73` but its body is not among the sources; per
the spec it is the single boundary function that "converts any failure —
including unexpected lower-level faults — into a uniform Status carrying
the error kind, message, and the original query string for diagnosis". -/
def exception_handler (query : String) (fault : LowLevelFault) : Status :=
  Status.error (fault_kind fault)
    (fault_message fault ++ " (query: " ++ query ++ ")")

/-- A concrete loaded image (10 pixels high, page height 3, four pages)
used to instantiate hypothesis-bearing theorems. -/
def sampleImage : VImageModel where
  width := 8
  height := 10
  bands := 3
  interpretation := VipsInterpretation.Srgb
  format := VipsBandFormat.Uchar
  xres := 1
  iccProfile := false
  chromaSubsample := none
  interlaced := false
  paletteBitDepth := none
  nPages := some 4
  pageHeight := some 3
  loop := none
  delay := none
  heifPrimary := none
  hasAlpha := false
  orientationMeta := none

/-! ## Theorems -/

/-- A key occurs (with some value) in an optional field group exactly when
it is the group's own name and the metadata entry is present. -/
theorem mem_optField_keys {α : Type} (k name : String) (o : Option α)
    (r : α → String) :
    (∃ v, (k, v) ∈ optField name o r) ↔ (k = name ∧ o.isSome = true) := by
  cases o <;> simp [optField]

/-- A key occurs (with some value) in a boolean-guarded field group exactly
when it is the group's own name and the condition holds. -/
theorem mem_condField_keys (k name v : String) (c : Bool) :
    (∃ w, (k, w) ∈ condField name c v) ↔ (k = name ∧ c = true) := by
  cases c <;> simp [condField]

/-- Two strings that are not prefixes of one another cannot both be
prefixes of the same loader name. -/
theorem starts_with_false_of {p q s : String} (hq : starts_with q s = true)
    (hpq : ¬ p.data <+: q.data) (hqp : ¬ q.data <+: p.data) :
    starts_with p s = false := by
  cases hp : starts_with p s with
  | false => rfl
  | true =>
      rw [starts_with] at hp hq
      rw [ List.isPrefixOf_iff_prefix] at hp hq
      rcases List.prefix_or_prefix_of_prefix hp hq with h | h
      · exact absurd h hpq
      · exact absurd h hqp

/-- C1: for int inputs, `mul_overflow` reports `true` exactly when the
mathematical product lies outside the signed 32-bit range, and on `false`
the stored result is the exact product (no silent wrapping reported as
success). -/
theorem mul_overflow_correct (a b : Int)
    (ha : intMin ≤ a ∧ a ≤ intMax) (hb : intMin ≤ b ∧ b ≤ intMax) :
    ((mul_overflow a b).1 = true ↔ (a * b < intMin ∨ a * b > intMax)) ∧
    ((mul_overflow a b).1 = false → (mul_overflow a b).2 = a * b) := by
  constructor
  · simp only [mul_overflow, Bool.or_eq_true, decide_eq_true_eq]
    tauto
  · intro hfalse
    simp only [mul_overflow, Bool.or_eq_false_iff, decide_eq_false_iff_not,
      not_lt, intMin, intMax] at hfalse
    show wrap32 (a * b) = a * b
    have h0 : (0:Int) ≤ a * b + 2 ^ 31 := by omega
    have h1 : a * b + 2 ^ 31 < 2 ^ 32 := by omega
    simp only [wrap32, Int.emod_eq_of_lt h0 h1]
    omega

/-- C1 witness: concrete in-range inputs 3 and 4; no overflow is reported
and the stored result is 12. -/
theorem mul_overflow_correct_witness :
    (mul_overflow 3 4).1 = false ∧ (mul_overflow 3 4).2 = 3 * 4 :=
  ⟨by decide,
   (mul_overflow_correct 3 4 ⟨by decide, by decide⟩ ⟨by decide, by decide⟩).2
     (by decide)⟩

/-- C2: `calculate_position` realizes the specification's 3x3 anchor grid
on both axes for all (possibly negative) surpluses, and yields (0, 0) for
every anchor when the inner and outer dimensions coincide. -/
theorem calculate_position_correct :
    (∀ (in_width in_height out_width out_height : Int) (pos : Position),
      calculate_position in_width in_height out_width out_height pos =
        (spec_axis_offset in_width out_width (anchorColumn pos),
         spec_axis_offset in_height out_height (anchorRow pos))) ∧
    (∀ (w h : Int) (pos : Position),
      calculate_position w h w h pos = (0, 0)) := by
  constructor
  · intro iw ih ow oh pos
    cases pos <;> rfl
  · intro w h pos
    cases pos <;> simp [calculate_position, sub_self, Int.zero_tdiv]

/-- C4: `resolve_angle_rotation` maps 90/180/270 to the matching
`VipsAngle` and is total: every other integer, including negative values
and non-multiples of 90, takes the defensive default `VIPS_ANGLE_D0`. -/
theorem resolve_angle_rotation_correct :
    resolve_angle_rotation 90 = VipsAngle.D90 ∧
    resolve_angle_rotation 180 = VipsAngle.D180 ∧
    resolve_angle_rotation 270 = VipsAngle.D270 ∧
    (∀ angle : Int, angle ≠ 90 → angle ≠ 180 → angle ≠ 270 →
      resolve_angle_rotation angle = VipsAngle.D0) := by
  refine ⟨rfl, rfl, rfl, ?_⟩
  intro angle h90 h180 h270
  simp [resolve_angle_rotation, h90, h180, h270]

/-- C4 witness: the precondition-violating angle -90 yields the defensive
default `VIPS_ANGLE_D0`. -/
theorem resolve_angle_rotation_correct_witness :
    resolve_angle_rotation (-90) = VipsAngle.D0 :=
  resolve_angle_rotation_correct.2.2.2 (-90) (by decide) (by decide) (by decide)

/-- C7: `maximum_image_alpha` is 65535 exactly on the 16-bit
interpretations (RGB16 and GREY16, the cases where `is_16_bit` holds) and
255 in every other case. -/
theorem maximum_image_alpha_correct :
    ∀ i : VipsInterpretation,
      (maximum_image_alpha i = 65535 ↔ is_16_bit i = true) ∧
      (maximum_image_alpha i = 255 ↔ is_16_bit i = false) ∧
      (is_16_bit i = true ↔
        (i = VipsInterpretation.Rgb16 ∨ i = VipsInterpretation.Grey16)) := by
  intro i
  cases i <;> decide

/-- C10: `to_output` only ever yields one of the five encodable outputs,
every type without a dedicated saver defaults to `Output::Png`, and the
composition with `determine_image_extension` only ever yields one of the
five allowed extensions. -/
theorem to_output_correct :
    (∀ t : ImageType,
      to_output t = Output.Jpeg ∨ to_output t = Output.Webp ∨
      to_output t = Output.Tiff ∨ to_output t = Output.Gif ∨
      to_output t = Output.Png) ∧
    to_output ImageType.Svg = Output.Png ∧
    to_output ImageType.Pdf = Output.Png ∧
    to_output ImageType.Heif = Output.Png ∧
    to_output ImageType.Magick = Output.Png ∧
    to_output ImageType.Unknown = Output.Png ∧
    (∀ t : ImageType,
      determine_image_extension (to_output t) ∈
        [".jpg", ".webp", ".tiff", ".gif", ".png"]) := by
  refine ⟨?_, rfl, rfl, rfl, rfl, rfl, ?_⟩ <;> intro t <;> cases t <;> decide

/-- C3: `get_page_height` returns the declared page height exactly when it
is present and plausible (positive and at most the image height), otherwise
the full image height; the result never exceeds the image height and is
positive for a positive-height image. -/
theorem get_page_height_correct (image : VImageModel) :
    (∀ ph : Int, image.pageHeight = some ph → 0 < ph → ph ≤ image.height →
      get_page_height image = ph) ∧
    (image.pageHeight = none → get_page_height image = image.height) ∧
    (∀ ph : Int, image.pageHeight = some ph → ¬(0 < ph ∧ ph ≤ image.height) →
      get_page_height image = image.height) ∧
    get_page_height image ≤ image.height ∧
    (0 < image.height → 0 < get_page_height image) := by
  unfold get_page_height vips_image_get_page_height
  cases hph : image.pageHeight with
  | none =>
      refine ⟨fun ph h => by simp at h, fun _ => rfl, fun ph h => by simp at h,
        le_refl _, fun h => h⟩
  | some ph =>
      refine ⟨?_, by simp, ?_, ?_, ?_⟩
      · intro ph' hsome h0 hle
        obtain rfl : ph = ph' := by injection hsome
        simp [h0, hle]
      · intro ph' hsome hbad
        obtain rfl : ph = ph' := by injection hsome
        simp only [if_neg hbad]
      · by_cases hc : 0 < ph ∧ ph ≤ image.height
        · simp [hc]
        · simp [hc]
      · intro hpos
        by_cases hc : 0 < ph ∧ ph ≤ image.height
        · simp [hc]
        · simpa [hc] using hpos

/-- C8: every lower-level fault, of any kind, is converted by
`exception_handler` into a failure `Status` tagged with the fault's error
kind whose message contains the original query string. -/
theorem exception_handler_correct (query : String) (fault : LowLevelFault) :
    exception_handler query fault ≠ Status.ok ∧
    (∃ message : String,
      exception_handler query fault = Status.error (fault_kind fault) message ∧
      query.data <:+: message.data) := by
  constructor
  · simp [exception_handler]
  · refine ⟨fault_message fault ++ " (query: " ++ query ++ ")", rfl, ?_⟩
    refine ⟨(fault_message fault ++ " (query: ").data, ")".data, ?_⟩
    simp [String.data_append, List.append_assoc]

/-- C3 witness: on the concrete sample image (height 10, declared page
height 3) the declared page height is returned. -/
theorem get_page_height_correct_witness :
    sampleImage.pageHeight = some 3 ∧ (0:Int) < 3 ∧
    (3:Int) ≤ sampleImage.height ∧ get_page_height sampleImage = 3 :=
  ⟨rfl, by decide, by decide,
   (get_page_height_correct sampleImage).1 3 rfl (by decide) (by decide)⟩

/-- C5: the JSON report contains each optional field exactly when the
corresponding fact is present on the source image, and the non-optional
fields always appear. -/
theorem image_to_json_presence (image : VImageModel) (t : ImageType) :
    ("density" ∈ json_keys image t ↔ has_density image = true) ∧
    ("pages" ∈ json_keys image t ↔ image.nPages.isSome = true) ∧
    ("pageHeight" ∈ json_keys image t ↔ image.pageHeight.isSome = true) ∧
    ("loop" ∈ json_keys image t ↔ image.loop.isSome = true) ∧
    ("delay" ∈ json_keys image t ↔ image.delay.isSome = true) ∧
    ("paletteBitDepth" ∈ json_keys image t ↔
      image.paletteBitDepth.isSome = true) ∧
    ("pagePrimary" ∈ json_keys image t ↔ image.heifPrimary.isSome = true) ∧
    ("chromaSubsampling" ∈ json_keys image t ↔
      image.chromaSubsample.isSome = true) ∧
    "format" ∈ json_keys image t ∧ "width" ∈ json_keys image t ∧
    "height" ∈ json_keys image t ∧ "space" ∈ json_keys image t ∧
    "channels" ∈ json_keys image t ∧ "depth" ∈ json_keys image t ∧
    "isProgressive" ∈ json_keys image t ∧ "hasProfile" ∈ json_keys image t ∧
    "hasAlpha" ∈ json_keys image t ∧ "orientation" ∈ json_keys image t := by
  simp [json_keys, image_to_json_fields, mem_optField_keys, mem_condField_keys]

/-- C6: `determine_image_type` is total: each of the nine recognized loader
prefixes maps to its `ImageType` (regardless of the order the checks are
written in), and any loader name starting with none of them maps to the
explicit `ImageType::Unknown`. -/
theorem determine_image_type_correct (loader : String) :
    (starts_with "VipsForeignLoadJpeg" loader = true →
      determine_image_type loader = ImageType.Jpeg) ∧
    (starts_with "VipsForeignLoadPng" loader = true →
      determine_image_type loader = ImageType.Png) ∧
    (starts_with "VipsForeignLoadWebp" loader = true →
      determine_image_type loader = ImageType.Webp) ∧
    (starts_with "VipsForeignLoadTiff" loader = true →
      determine_image_type loader = ImageType.Tiff) ∧
    (starts_with "VipsForeignLoadGif" loader = true →
      determine_image_type loader = ImageType.Gif) ∧
    (starts_with "VipsForeignLoadSvg" loader = true →
      determine_image_type loader = ImageType.Svg) ∧
    (starts_with "VipsForeignLoadPdf" loader = true →
      determine_image_type loader = ImageType.Pdf) ∧
    (starts_with "VipsForeignLoadHeif" loader = true →
      determine_image_type loader = ImageType.Heif) ∧
    (starts_with "VipsForeignLoadMagick" loader = true →
      determine_image_type loader = ImageType.Magick) ∧
    ((starts_with "VipsForeignLoadJpeg" loader = false ∧
      starts_with "VipsForeignLoadPng" loader = false ∧
      starts_with "VipsForeignLoadWebp" loader = false ∧
      starts_with "VipsForeignLoadTiff" loader = false ∧
      starts_with "VipsForeignLoadGif" loader = false ∧
      starts_with "VipsForeignLoadSvg" loader = false ∧
      starts_with "VipsForeignLoadPdf" loader = false ∧
      starts_with "VipsForeignLoadHeif" loader = false ∧
      starts_with "VipsForeignLoadMagick" loader = false) →
      determine_image_type loader = ImageType.Unknown) := by
  refine ⟨?_, ?_, ?_, ?_, ?_, ?_, ?_, ?_, ?_, ?_⟩
  · intro h
    simp [determine_image_type, h]
  · intro h
    have h1 : starts_with "VipsForeignLoadJpeg" loader = false :=
      starts_with_false_of h (by decide) (by decide)
    simp [determine_image_type, h, h1]
  · intro h
    have h1 : starts_with "VipsForeignLoadJpeg" loader = false :=
      starts_with_false_of h (by decide) (by decide)
    have h2 : starts_with "VipsForeignLoadPng" loader = false :=
      starts_with_false_of h (by decide) (by decide)
    simp [determine_image_type, h, h1, h2]
  · intro h
    have h1 : starts_with "VipsForeignLoadJpeg" loader = false :=
      starts_with_false_of h (by decide) (by decide)
    have h2 : starts_with "VipsForeignLoadPng" loader = false :=
      starts_with_false_of h (by decide) (by decide)
    have h3 : starts_with "VipsForeignLoadWebp" loader = false :=
      starts_with_false_of h (by decide) (by decide)
    simp [determine_image_type, h, h1, h2, h3]
  · intro h
    have h1 : starts_with "VipsForeignLoadJpeg" loader = false :=
      starts_with_false_of h (by decide) (by decide)
    have h2 : starts_with "VipsForeignLoadPng" loader = false :=
      starts_with_false_of h (by decide) (by decide)
    have h3 : starts_with "VipsForeignLoadWebp" loader = false :=
      starts_with_false_of h (by decide) (by decide)
    have h4 : starts_with "VipsForeignLoadTiff" loader = false :=
      starts_with_false_of h (by decide) (by decide)
    simp [determine_image_type, h, h1, h2, h3, h4]
  · intro h
    have h1 : starts_with "VipsForeignLoadJpeg" loader = false :=
      starts_with_false_of h (by decide) (by decide)
    have h2 : starts_with "VipsForeignLoadPng" loader = false :=
      starts_with_false_of h (by decide) (by decide)
    have h3 : starts_with "VipsForeignLoadWebp" loader = false :=
      starts_with_false_of h (by decide) (by decide)
    have h4 : starts_with "VipsForeignLoadTiff" loader = false :=
      starts_with_false_of h (by decide) (by decide)
    have h5 : starts_with "VipsForeignLoadGif" loader = false :=
      starts_with_false_of h (by decide) (by decide)
    simp [determine_image_type, h, h1, h2, h3, h4, h5]
  · intro h
    have h1 : starts_with "VipsForeignLoadJpeg" loader = false :=
      starts_with_false_of h (by decide) (by decide)
    have h2 : starts_with "VipsForeignLoadPng" loader = false :=
      starts_with_false_of h (by decide) (by decide)
    have h3 : starts_with "VipsForeignLoadWebp" loader = false :=
      starts_with_false_of h (by decide) (by decide)
    have h4 : starts_with "VipsForeignLoadTiff" loader = false :=
      starts_with_false_of h (by decide) (by decide)
    have h5 : starts_with "VipsForeignLoadGif" loader = false :=
      starts_with_false_of h (by decide) (by decide)
    have h6 : starts_with "VipsForeignLoadSvg" loader = false :=
      starts_with_false_of h (by decide) (by decide)
    simp [determine_image_type, h, h1, h2, h3, h4, h5, h6]
  · intro h
    have h1 : starts_with "VipsForeignLoadJpeg" loader = false :=
      starts_with_false_of h (by decide) (by decide)
    have h2 : starts_with "VipsForeignLoadPng" loader = false :=
      starts_with_false_of h (by decide) (by decide)
    have h3 : starts_with "VipsForeignLoadWebp" loader = false :=
      starts_with_false_of h (by decide) (by decide)
    have h4 : starts_with "VipsForeignLoadTiff" loader = false :=
      starts_with_false_of h (by decide) (by decide)
    have h5 : starts_with "VipsForeignLoadGif" loader = false :=
      starts_with_false_of h (by decide) (by decide)
    have h6 : starts_with "VipsForeignLoadSvg" loader = false :=
      starts_with_false_of h (by decide) (by decide)
    have h7 : starts_with "VipsForeignLoadPdf" loader = false :=
      starts_with_false_of h (by decide) (by decide)
    simp [determine_image_type, h, h1, h2, h3, h4, h5, h6, h7]
  · intro h
    have h1 : starts_with "VipsForeignLoadJpeg" loader = false :=
      starts_with_false_of h (by decide) (by decide)
    have h2 : starts_with "VipsForeignLoadPng" loader = false :=
      starts_with_false_of h (by decide) (by decide)
    have h3 : starts_with "VipsForeignLoadWebp" loader = false :=
      starts_with_false_of h (by decide) (by decide)
    have h4 : starts_with "VipsForeignLoadTiff" loader = false :=
      starts_with_false_of h (by decide) (by decide)
    have h5 : starts_with "VipsForeignLoadGif" loader = false :=
      starts_with_false_of h (by decide) (by decide)
    have h6 : starts_with "VipsForeignLoadSvg" loader = false :=
      starts_with_false_of h (by decide) (by decide)
    have h7 : starts_with "VipsForeignLoadPdf" loader = false :=
      starts_with_false_of h (by decide) (by decide)
    have h8 : starts_with "VipsForeignLoadHeif" loader = false :=
      starts_with_false_of h (by decide) (by decide)
    simp [determine_image_type, h, h1, h2, h3, h4, h5, h6, h7, h8]
  · intro h
    obtain ⟨h1, h2, h3, h4, h5, h6, h7, h8, h9⟩ := h
    simp [determine_image_type, h1, h2, h3, h4, h5, h6, h7, h8, h9]

/-- C6 witness: the concrete loader name `VipsForeignLoadPngBuffer` starts
with the Png prefix and is classified as `ImageType::Png`. -/
theorem determine_image_type_correct_witness :
    determine_image_type "VipsForeignLoadPngBuffer" = ImageType.Png :=
  (determine_image_type_correct "VipsForeignLoadPngBuffer").2.1 (by decide)

end Weserv
